import Mathlib

/-!
# Verification of the EcoBottle ETL dimensional transformation (src/ETL/transform.py)

A shallow embedding of the transformation phase of the ETL pipeline.

Modelling conventions:
* A pandas `DataFrame` is a `List` of row structures; column order is fixed by the
  structure's field order (mirroring the final column projection of each builder).
* A timestamp-bearing cell (`TCell`) is either a null, a parseable timestamp
  (seconds since the Unix epoch, as an `Int`), or an unparseable value (`bad`);
  `pd.to_datetime(-, errors='coerce')` is `parseTs`, which coerces both `null`
  and `bad` to `none` (NaT).
* `.dt.normalize()` truncates a timestamp to its calendar day; calendar-dimension
  dates are stored as whole-day numbers (floored division of the timestamp by 86400),
  which is equivalent to midnight-truncated timestamps up to a fixed bijection.
* A nullable integer column is `List (Option Int)`; `fillna` / `astype(int)` are
  `fillnaCol` / `astypeIntCol`, the latter returning `Except` because pandas raises
  on converting a non-finite (NaN) value to integer.
* `pd.merge(-, -, how='left')` is `leftJoin`: every left row with no match yields
  exactly one output row paired with `none`; a left row with k matches yields k rows.
  Merge keys compare with decidable equality on `Option`, matching pandas' behaviour
  of joining NaN keys to NaN keys.
-/

/-- A cell of a timestamp-bearing source column: null, a timestamp
(seconds since epoch), or an unparseable value. -/
inductive TCell where
  | null : TCell
  | ts (secs : Int) : TCell
  | bad : TCell
deriving DecidableEq, Repr

/-- `pd.to_datetime(series, errors='coerce')`, per cell: nulls and unparseable
values coerce to NaT (`none`). -/
def parseTs : TCell → Option Int
  | .null => none
  | .ts secs => some secs
  | .bad => none

/-- `.dt.normalize()`: truncate a timestamp to its calendar day (floored). -/
def normalizeDay (t : Int) : Int := t.fdiv 86400

/-- `Series.fillna(d)` on a nullable integer column. -/
def fillnaCol (d : Int) (col : List (Option Int)) : List (Option Int) :=
  col.map (fun o => some (o.getD d))

/-- `Series.astype(int)` on a nullable integer column: pandas raises
`IntCastingNaNError` if any value is NaN, otherwise converts the whole column. -/
def astypeIntCol : List (Option Int) → Except String (List Int)
  | [] => .ok []
  | none :: _ => .error "Cannot convert non-finite values (NA or inf) to integer"
  | some n :: rest => (astypeIntCol rest).map (fun tl => n :: tl)

/-- `pd.merge(l, r, how='left')`: each left row with no match yields one row
paired with `none` (right columns NaN); with k matches it yields k rows, in
right-table order; left order is preserved. -/
def leftJoin (l : List α) (r : List β) (onCols : α → β → Bool)
    (combine : α → Option β → γ) : List γ :=
  match l with
  | [] => []
  | a :: as =>
    let ms := r.filter (onCols a)
    (if ms.isEmpty then [combine a none] else ms.map (fun b => combine a (some b)))
      ++ leftJoin as r onCols combine

/-- `df.reset_index(drop=True); df['id'] = df.index + 1`: assign the 1-based row
position via the supplied id-setter, starting at `n`. -/
def assignIdsFrom (set : Nat → α → α) (n : Nat) : List α → List α
  | [] => []
  | a :: as => set n a :: assignIdsFrom set (n + 1) as

/-- Surrogate-key assignment: 1-based row position. -/
def assignIds (set : Nat → α → α) (l : List α) : List α :=
  assignIdsFrom set 1 l

/-- Zero-pad a number to two digits (as `strftime` does). -/
def pad2 (n : Nat) : String :=
  if n < 10 then "0" ++ toString n else toString n

/-- Format the time-of-day component of a timestamp as `HH:MM:SS`. -/
def fmtTime (t : Int) : String :=
  let s := (t.emod 86400).toNat
  pad2 (s / 3600) ++ ":" ++ pad2 (s / 60 % 60) ++ ":" ++ pad2 (s % 60)

/-- One cell of `_get_time`: `strftime('%H:%M:%S')` with nulls filled by
`'00:00:00'`. -/
def timeOfCell (c : TCell) : String :=
  match parseTs c with
  | none => "00:00:00"
  | some t => fmtTime t

/-- `_get_time`: extract `HH:MM:SS` per row, filling unparseable/null rows
with `"00:00:00"`. -/
def _get_time (date_series : List TCell) : List String :=
  date_series.map timeOfCell

/-! ## Civil-calendar arithmetic (the date attributes of `dim_calendar`) -/

/-- Convert a day number (days since 1970-01-01) to `(year, month, day)`. -/
def civilFromDays (z0 : Int) : Int × Nat × Nat :=
  let z := z0 + 719468
  let era : Int := z.fdiv 146097
  let doe : Nat := (z - era * 146097).toNat
  let yoe : Nat := (doe - doe / 1460 + doe / 36524 - doe / 146096) / 365
  let doy : Nat := doe - (365 * yoe + yoe / 4 - yoe / 100)
  let mp : Nat := (5 * doy + 2) / 153
  let d : Nat := doy - (153 * mp + 2) / 5 + 1
  let m : Nat := if mp < 10 then mp + 3 else mp - 9
  ((era * 400 + (yoe : Int)) + (if m ≤ 2 then 1 else 0), m, d)

/-- Convert `(year, month, day)` to a day number (days since 1970-01-01). -/
def daysFromCivil (y0 : Int) (m d : Nat) : Int :=
  let y := y0 - (if m ≤ 2 then 1 else 0)
  let era : Int := y.fdiv 400
  let yoe : Nat := (y - era * 400).toNat
  let mp : Nat := if m > 2 then m - 3 else m + 9
  let doy : Nat := (153 * mp + 2) / 5 + d - 1
  let doe : Nat := yoe * 365 + yoe / 4 - yoe / 100 + doy
  era * 146097 + (doe : Int) - 719468

/-- Day-of-week of a day number, 0 = Sunday … 6 = Saturday. -/
def weekdayOf (z : Int) : Nat := ((z + 4).emod 7).toNat

/-- `dt.day_name()` (English locale). -/
def dayName (w : Nat) : String :=
  match w with
  | 0 => "Sunday" | 1 => "Monday" | 2 => "Tuesday" | 3 => "Wednesday"
  | 4 => "Thursday" | 5 => "Friday" | _ => "Saturday"

/-- `dt.month_name()` (English locale). -/
def monthName (m : Nat) : String :=
  match m with
  | 1 => "January" | 2 => "February" | 3 => "March" | 4 => "April"
  | 5 => "May" | 6 => "June" | 7 => "July" | 8 => "August"
  | 9 => "September" | 10 => "October" | 11 => "November" | _ => "December"

/-- ISO weekday, Monday = 1 … Sunday = 7. -/
def isoWeekday (z : Int) : Nat := ((z + 3).emod 7).toNat + 1

/-- Number of ISO weeks in an ISO year. -/
def isoWeeksInYear (y : Int) : Nat :=
  let p := fun (yy : Int) => (yy + yy.fdiv 4 - yy.fdiv 100 + yy.fdiv 400).emod 7
  if p y == 4 || p (y - 1) == 3 then 53 else 52

/-- `dt.isocalendar().week`: ISO-8601 week number of a day number. -/
def isoWeekNumber (z : Int) : Nat :=
  let y := (civilFromDays z).1
  let doy := (z - daysFromCivil y 1 1).toNat + 1
  let wd := isoWeekday z
  let w := (doy + 10 - wd) / 7
  if w < 1 then isoWeeksInYear (y - 1)
  else if w > isoWeeksInYear y then 1
  else w

/-! ## The Calendar dimension -/

/-- One row of `dim_calendar`, fields in final column order. -/
structure CalRow where
  id : Nat
  date : Int
  day : Nat
  month : Nat
  year : Int
  day_name : String
  month_name : String
  quarter : Nat
  week_number : Nat
  year_month : String
  is_weekend : Bool
deriving DecidableEq, Repr

/-- The column set of `dim_calendar` (identical in the empty and non-empty branches). -/
def calendarColumns : List String :=
  ["id", "date", "day", "month", "year", "day_name", "month_name", "quarter",
   "week_number", "year_month", "is_weekend"]

/-- A `DataFrame` whose schema matters to a claim: its column list plus its rows. -/
structure CalendarDF where
  columns : List String
  rows : List CalRow
deriving DecidableEq, Repr

/-- Build one enriched calendar row for day number `d` with surrogate key `i`. -/
def mkCalendarRow (i : Nat) (d : Int) : CalRow :=
  let c := civilFromDays d
  let dn := dayName (weekdayOf d)
  { id := i
    date := d
    day := c.2.2
    month := c.2.1
    year := c.1
    day_name := dn
    month_name := monthName c.2.1
    quarter := (c.2.1 - 1) / 3 + 1
    week_number := isoWeekNumber d
    year_month := toString c.1 ++ "-" ++ pad2 c.2.1
    is_weekend := ["Saturday", "Sunday"].contains dn }

/-- `series.min()` (the branch guarding the call guarantees nonemptiness;
`0` is dead code for the empty list). -/
def seriesMin : List Int → Int
  | [] => 0
  | d :: ds => ds.foldl min d

/-- `series.max()`. -/
def seriesMax : List Int → Int
  | [] => 0
  | d :: ds => ds.foldl max d

/-- `pd.date_range(start, end, freq='D')`: every day from `mn` to `mx` inclusive. -/
def date_range (mn mx : Int) : List Int :=
  (List.range ((mx - mn).toNat + 1)).map (fun (k : Nat) => mn + (k : Int))

/-! ## Source-table row types (one structure per raw CSV table) -/

/-- `customer.csv`. -/
structure CustomerRow where
  customer_id : String
  email : String
  first_name : String
  last_name : String
  phone : String
  status : String
  created_at : TCell
deriving DecidableEq, Repr

/-- `channel.csv`. -/
structure ChannelRow where
  channel_id : String
  code : String
  name : String
deriving DecidableEq, Repr

/-- `address.csv`. -/
structure AddressRow where
  address_id : Int
  line1 : String
  line2 : String
  city : String
  province_id : Option Int
  postal_code : String
  country_code : String
  created_at : TCell
deriving DecidableEq, Repr

/-- `province.csv`. -/
structure ProvinceRow where
  province_id : Int
  name : String
  code : String
deriving DecidableEq, Repr

/-- A cell of a key column that `create_dim_product` casts with `astype(str)`. -/
inductive SCell where
  | null : SCell
  | i (n : Int) : SCell
  | s (v : String) : SCell
deriving DecidableEq, Repr

/-- `Series.astype(str)` on one cell: NaN renders as the string `"nan"`. -/
def astypeStr : SCell → String
  | .null => "nan"
  | .i n => toString n
  | .s v => v

/-- `product.csv`. -/
structure ProductRow where
  product_id : String
  sku : String
  name : String
  list_price : Int
  status : String
  created_at : TCell
  category_id : SCell
deriving DecidableEq, Repr

/-- `product_category.csv`. -/
structure ProductCategoryRow where
  category_id : SCell
  parent_id : SCell
  name : String
deriving DecidableEq, Repr

/-- `store.csv` (no `created_at` of its own: `dim_store`'s `created_at` is
denormalized in from the joined address). -/
structure StoreRow where
  store_id : String
  name : String
  address_id : Option Int
deriving DecidableEq, Repr

/-- `sales_order.csv`. -/
structure SalesOrderRow where
  order_id : Option Int
  customer_id : Option Int
  channel_id : Option Int
  store_id : Option Int
  order_date : TCell
  billing_address_id : Option Int
  shipping_address_id : Option Int
  status : String
  currency_code : String
  subtotal : Int
  tax_amount : Int
  shipping_fee : Int
  total_amount : Int
deriving DecidableEq, Repr

/-- `sales_order_item.csv`. -/
structure SalesOrderItemRow where
  order_item_id : Int
  order_id : Option Int
  product_id : Option Int
  quantity : Int
  unit_price : Int
  discount_amount : Int
  line_total : Int
deriving DecidableEq, Repr

/-- `payment.csv`. -/
structure PaymentRow where
  payment_id : Int
  order_id : Option Int
  method : String
  status : String
  amount : Int
  paid_at : TCell
  transaction_ref : String
deriving DecidableEq, Repr

/-- `shipment.csv`. -/
structure ShipmentRow where
  shipment_id : Int
  order_id : Option Int
  carrier : String
  shipped_at : TCell
  delivered_at : TCell
  tracking_number : String
deriving DecidableEq, Repr

/-- `web_session.csv`. -/
structure WebSessionRow where
  session_id : Int
  customer_id : Option Int
  started_at : TCell
  ended_at : TCell
  source : String
  device : String
deriving DecidableEq, Repr

/-- `nps_response.csv`. -/
structure NpsResponseRow where
  nps_id : Int
  customer_id : Option Int
  channel_id : Option Int
  responded_at : TCell
  score : Int
deriving DecidableEq, Repr

/-- The extract snapshot: one in-memory table per raw source. -/
structure Data where
  address : List AddressRow
  channel : List ChannelRow
  customer : List CustomerRow
  nps_response : List NpsResponseRow
  payment : List PaymentRow
  product : List ProductRow
  product_category : List ProductCategoryRow
  province : List ProvinceRow
  sales_order : List SalesOrderRow
  sales_order_item : List SalesOrderItemRow
  shipment : List ShipmentRow
  store : List StoreRow
  web_session : List WebSessionRow
deriving DecidableEq, Repr

/-! ## `create_dim_calendar` and `_get_date_id` -/

/-- The concatenation of the nine designated timestamp columns, parsed with
`errors='coerce'`, with NaT dropped, then normalized to day numbers
(`all_dates` / `all_dates_normalized` in `create_dim_calendar`). -/
def all_dates_normalized (data : Data) : List Int :=
  (((data.sales_order.map (fun r => parseTs r.order_date))
    ++ data.web_session.map (fun r => parseTs r.started_at)
    ++ data.nps_response.map (fun r => parseTs r.responded_at)
    ++ data.payment.map (fun r => parseTs r.paid_at)
    ++ data.shipment.map (fun r => parseTs r.shipped_at)
    ++ data.shipment.map (fun r => parseTs r.delivered_at)
    ++ data.customer.map (fun r => parseTs r.created_at)
    ++ data.address.map (fun r => parseTs r.created_at)
    ++ data.product.map (fun r => parseTs r.created_at)).filterMap id).map normalizeDay

/-- `create_dim_calendar`: derive the global day span from the designated
columns and materialize one enriched row per day, with 1-based surrogate keys;
an empty date set yields a zero-row table with the full column set. -/
def create_dim_calendar (data : Data) : CalendarDF :=
  let dates := all_dates_normalized data
  if dates = [] then
    { columns := calendarColumns, rows := [] }
  else
    let min_date := seriesMin dates
    let max_date := seriesMax dates
    { columns := calendarColumns,
      rows := assignIds (fun i r => { r with id := i })
        ((date_range min_date max_date).map (fun d => mkCalendarRow 0 d)) }

/-- `_get_date_id`: parse the input column (`errors='coerce'`), normalize to
day, and left-merge against `dim_calendar[['date','id']]` to produce the
calendar surrogate key (or null) per row. -/
def _get_date_id (date_series : List TCell) (dim_calendar : List CalRow) :
    List (Option Nat) :=
  let dates := date_series.map (fun c => (parseTs c).map normalizeDay)
  leftJoin dates dim_calendar (fun d r => d == some r.date)
    (fun _ m => m.map (fun r => r.id))

/-! ## Dimension builders -/

/-- `df.sort_values(by=key)`: sort ascending by the given key. Text natural
keys are sorted by their character-list image, which is order-isomorphic to
the string order (`String.le_iff_toList_le`). -/
def sort_values (key : α → κ) [LinearOrder κ] (l : List α) : List α :=
  List.insertionSort (fun a b => key a ≤ key b) l

/-- One row of `dim_customer`, fields in final column order. -/
structure DimCustomerRow where
  id : Nat
  customer_key : String
  email : String
  first_name : String
  last_name : String
  phone : String
  status : String
  created_at : TCell
deriving DecidableEq, Repr

/-- `create_dim_customer`: rename `customer_id` to `customer_key`, project,
sort by the natural key, assign 1-based surrogate keys. -/
def create_dim_customer (customer : List CustomerRow) : List DimCustomerRow :=
  let df := customer.map (fun c =>
    { id := 0, customer_key := c.customer_id, email := c.email,
      first_name := c.first_name, last_name := c.last_name, phone := c.phone,
      status := c.status, created_at := c.created_at : DimCustomerRow })
  assignIds (fun i r => { r with id := i }) (sort_values (fun r => r.customer_key.toList) df)

/-- One row of `dim_channel`. -/
structure DimChannelRow where
  id : Nat
  channel_key : String
  code : String
  name : String
deriving DecidableEq, Repr

/-- `create_dim_channel`. -/
def create_dim_channel (channel : List ChannelRow) : List DimChannelRow :=
  let df := channel.map (fun c =>
    { id := 0, channel_key := c.channel_id, code := c.code, name := c.name : DimChannelRow })
  assignIds (fun i r => { r with id := i }) (sort_values (fun r => r.channel_key.toList) df)

/-- One row of `dim_address`; the province attributes are nullable because the
left join to `province` can miss. -/
structure DimAddressRow where
  id : Nat
  address_key : Int
  line1 : String
  line2 : String
  city : String
  province_name : Option String
  province_code : Option String
  postal_code : String
  country_code : String
  created_at : TCell
deriving DecidableEq, Repr

/-- `create_dim_address`: left-join `address` to `province` on `province_id`,
denormalize the province name/code, sort by the natural key, assign ids. -/
def create_dim_address (address : List AddressRow) (province : List ProvinceRow) :
    List DimAddressRow :=
  let df := leftJoin address province
    (fun a p => a.province_id == some p.province_id)
    (fun a p =>
      { id := 0, address_key := a.address_id, line1 := a.line1, line2 := a.line2,
        city := a.city, province_name := p.map (fun x => x.name),
        province_code := p.map (fun x => x.code), postal_code := a.postal_code,
        country_code := a.country_code, created_at := a.created_at : DimAddressRow })
  assignIds (fun i r => { r with id := i }) (sort_values (fun r => r.address_key) df)

/-- One row of `dim_product`; the category labels are non-null because the
builder fills join misses with `"Sin Categoría"`. -/
structure DimProductRow where
  id : Nat
  product_key : String
  sku : String
  name : String
  list_price : Int
  status : String
  created_at : TCell
  category_name : String
  parent_category_name : String
deriving DecidableEq, Repr

/-- An enriched category: the category with its parent's name attached
(`categories_enriched` inside `create_dim_product`); key fields already cast
to text by `astype(str)`. -/
structure EnrichedCategory where
  category_id : String
  parent_id : String
  name : String
  parent_category_name : Option String
deriving DecidableEq, Repr

/-- `create_dim_product`: cast the category identifiers to text on both sides,
self-join categories to attach each category's parent's name, left-join
products to the enriched categories, fill missing labels with
`"Sin Categoría"`, sort by the natural key, assign ids. -/
def create_dim_product (product : List ProductRow)
    (product_category : List ProductCategoryRow) : List DimProductRow :=
  let parent_cats := product_category.map
    (fun c => (astypeStr c.category_id, c.name))
  let categories_enriched := leftJoin product_category parent_cats
    (fun c p => astypeStr c.parent_id == p.1)
    (fun c p =>
      { category_id := astypeStr c.category_id, parent_id := astypeStr c.parent_id,
        name := c.name, parent_category_name := p.map (fun x => x.2) : EnrichedCategory })
  let df := leftJoin product categories_enriched
    (fun pr ce => astypeStr pr.category_id == ce.category_id)
    (fun pr ce =>
      { id := 0, product_key := pr.product_id, sku := pr.sku, name := pr.name,
        list_price := pr.list_price, status := pr.status, created_at := pr.created_at,
        category_name := (ce.map (fun x => x.name)).getD "Sin Categoría",
        parent_category_name :=
          (ce.bind (fun x => x.parent_category_name)).getD "Sin Categoría" : DimProductRow })
  assignIds (fun i r => { r with id := i }) (sort_values (fun r => r.product_key.toList) df)

/-- One row of `dim_store`; address/province attributes are nullable because
either left join can miss. -/
structure DimStoreRow where
  id : Nat
  store_key : String
  name : String
  line : Option String
  city : Option String
  province_name : Option String
  province_code : Option String
  postal_code : Option String
  country_code : Option String
  created_at : Option TCell
deriving DecidableEq, Repr

/-- `create_dim_store`: left-join `store` to `address` on `address_id`, then to
`province` on `province_id`; disambiguate the store vs. province `name`
columns; sort by the natural key, assign ids. -/
def create_dim_store (store : List StoreRow) (address : List AddressRow)
    (province : List ProvinceRow) : List DimStoreRow :=
  let store_addr := leftJoin store address
    (fun s a => s.address_id == some a.address_id)
    (fun s a => (s, a))
  let df := leftJoin store_addr province
    (fun sa p => (sa.2.bind (fun a => a.province_id)) == some p.province_id)
    (fun sa p =>
      { id := 0, store_key := sa.1.store_id, name := sa.1.name,
        line := sa.2.map (fun a => a.line1), city := sa.2.map (fun a => a.city),
        province_name := p.map (fun x => x.name),
        province_code := p.map (fun x => x.code),
        postal_code := sa.2.map (fun a => a.postal_code),
        country_code := sa.2.map (fun a => a.country_code),
        created_at := sa.2.map (fun a => a.created_at) : DimStoreRow })
  assignIds (fun i r => { r with id := i }) (sort_values (fun r => r.store_key.toList) df)

/-! ## Fact builders -/

/-- One row of `fact_sales_order`, fields in final column order. `id`,
`customer_id` and `channel_id` are carried verbatim from the source (and hence
stay nullable); `store_id`, `billing_address_id` and `shipping_address_id` are
cleaned with `fillna(-1).astype(int)`. -/
structure FactSalesOrderRow where
  id : Option Int
  customer_id : Option Int
  channel_id : Option Int
  store_id : Int
  order_date_id : Option Nat
  order_time : String
  billing_address_id : Int
  shipping_address_id : Int
  status_order : String
  currency_code : String
  subtotal : Int
  tax_amount : Int
  shipping_fee : Int
  total_amount : Int
deriving DecidableEq, Repr

/-- `create_fact_sales_order` (header grain). -/
def create_fact_sales_order (sales_order : List SalesOrderRow)
    (dim_calendar : List CalRow) : Except String (List FactSalesOrderRow) := do
  let df := sales_order
  let order_date_id := _get_date_id (df.map (fun r => r.order_date)) dim_calendar
  let order_time := _get_time (df.map (fun r => r.order_date))
  let store_id ← astypeIntCol (fillnaCol (-1) (df.map (fun r => r.store_id)))
  let billing_address_id ← astypeIntCol (fillnaCol (-1) (df.map (fun r => r.billing_address_id)))
  let shipping_address_id ← astypeIntCol (fillnaCol (-1) (df.map (fun r => r.shipping_address_id)))
  return (((((df.zip order_date_id).zip order_time).zip store_id).zip
      billing_address_id).zip shipping_address_id).map
    (fun x =>
      { id := x.1.1.1.1.1.order_id, customer_id := x.1.1.1.1.1.customer_id,
        channel_id := x.1.1.1.1.1.channel_id, store_id := x.1.1.2,
        order_date_id := x.1.1.1.1.2, order_time := x.1.1.1.2,
        billing_address_id := x.1.2, shipping_address_id := x.2,
        status_order := x.1.1.1.1.1.status, currency_code := x.1.1.1.1.1.currency_code,
        subtotal := x.1.1.1.1.1.subtotal, tax_amount := x.1.1.1.1.1.tax_amount,
        shipping_fee := x.1.1.1.1.1.shipping_fee,
        total_amount := x.1.1.1.1.1.total_amount })

/-- One row of `fact_sales_order_item`. `order_id` is carried verbatim;
`customer_id`, `channel_id`, `store_id` (inherited from the order header) and
`product_id` are cleaned with `fillna(-1).astype(int)`. -/
structure FactSalesOrderItemRow where
  id : Int
  order_id : Option Int
  customer_id : Int
  channel_id : Int
  store_id : Int
  product_id : Int
  order_date_id : Option Nat
  quantity : Int
  unit_price : Int
  discount_amount : Int
  line_total : Int
deriving DecidableEq, Repr

/-- `create_fact_sales_order_item` (line grain): left-join the items to the
order header for customer/channel/store/order-date, resolve the date key,
clean the relational keys. -/
def create_fact_sales_order_item (sales_order_item : List SalesOrderItemRow)
    (sales_order : List SalesOrderRow) (dim_calendar : List CalRow) :
    Except String (List FactSalesOrderItemRow) := do
  let df := leftJoin sales_order_item sales_order
    (fun it o => it.order_id == o.order_id) (fun it o => (it, o))
  let order_date_id := _get_date_id
    (df.map (fun x => (x.2.map (fun o => o.order_date)).getD TCell.null)) dim_calendar
  let store_id ← astypeIntCol (fillnaCol (-1) (df.map (fun x => x.2.bind (fun o => o.store_id))))
  let customer_id ← astypeIntCol (fillnaCol (-1) (df.map (fun x => x.2.bind (fun o => o.customer_id))))
  let channel_id ← astypeIntCol (fillnaCol (-1) (df.map (fun x => x.2.bind (fun o => o.channel_id))))
  let product_id ← astypeIntCol (fillnaCol (-1) (df.map (fun x => x.1.product_id)))
  return (((((df.zip order_date_id).zip store_id).zip customer_id).zip
      channel_id).zip product_id).map
    (fun x =>
      { id := x.1.1.1.1.1.1.order_item_id, order_id := x.1.1.1.1.1.1.order_id,
        customer_id := x.1.1.2, channel_id := x.1.2, store_id := x.1.1.1.2,
        product_id := x.2, order_date_id := x.1.1.1.1.2,
        quantity := x.1.1.1.1.1.1.quantity, unit_price := x.1.1.1.1.1.1.unit_price,
        discount_amount := x.1.1.1.1.1.1.discount_amount,
        line_total := x.1.1.1.1.1.1.line_total })

/-- One row of `fact_payment`. -/
structure FactPaymentRow where
  id : Int
  customer_id : Int
  billing_address_id : Int
  channel_id : Int
  store_id : Int
  method : String
  status_payment : String
  amount : Int
  paid_at_date_id : Option Nat
  paid_at_time : String
  transaction_ref : String
deriving DecidableEq, Repr

/-- `create_fact_payment` (transaction grain): left-join the payments to the
order header, resolve the paid-at date/time, clean the relational keys. -/
def create_fact_payment (payment : List PaymentRow)
    (sales_order : List SalesOrderRow) (dim_calendar : List CalRow) :
    Except String (List FactPaymentRow) := do
  let df := leftJoin payment sales_order
    (fun p o => p.order_id == o.order_id) (fun p o => (p, o))
  let paid_at_date_id := _get_date_id (df.map (fun x => x.1.paid_at)) dim_calendar
  let paid_at_time := _get_time (df.map (fun x => x.1.paid_at))
  let store_id ← astypeIntCol (fillnaCol (-1) (df.map (fun x => x.2.bind (fun o => o.store_id))))
  let customer_id ← astypeIntCol (fillnaCol (-1) (df.map (fun x => x.2.bind (fun o => o.customer_id))))
  let channel_id ← astypeIntCol (fillnaCol (-1) (df.map (fun x => x.2.bind (fun o => o.channel_id))))
  let billing_address_id ← astypeIntCol (fillnaCol (-1)
    (df.map (fun x => x.2.bind (fun o => o.billing_address_id))))
  return ((((((df.zip paid_at_date_id).zip paid_at_time).zip store_id).zip
      customer_id).zip channel_id).zip billing_address_id).map
    (fun x =>
      { id := x.1.1.1.1.1.1.1.payment_id, customer_id := x.1.1.2,
        billing_address_id := x.2, channel_id := x.1.2, store_id := x.1.1.1.2,
        method := x.1.1.1.1.1.1.1.method, status_payment := x.1.1.1.1.1.1.1.status,
        amount := x.1.1.1.1.1.1.1.amount, paid_at_date_id := x.1.1.1.1.1.2,
        paid_at_time := x.1.1.1.1.2,
        transaction_ref := x.1.1.1.1.1.1.1.transaction_ref })

/-- One row of `fact_shipment`; `dias_de_entrega` is nullable (NaT-propagating
timedelta arithmetic). -/
structure FactShipmentRow where
  id : Int
  customer_id : Int
  shipping_address_id : Int
  channel_id : Int
  carrier : String
  shipped_at_date_id : Option Nat
  shipped_at_time : String
  delivered_at_date_id : Option Nat
  delivered_at_time : String
  tracking_number : String
  dias_de_entrega : Option Int
deriving DecidableEq, Repr

/-- `(delivered_at - shipped_at).dt.days`: the floored whole-day difference of
the two parsed timestamps, NaT-propagating. -/
def diasDeEntrega (delivered shipped : Option Int) : Option Int :=
  match delivered, shipped with
  | some d, some s => some ((d - s).fdiv 86400)
  | _, _ => none

/-- `create_fact_shipment` (event grain): left-join the shipments to the order
header, parse both timestamps first, resolve both date/time keys, derive
`dias_de_entrega`, clean the relational keys. -/
def create_fact_shipment (shipment : List ShipmentRow)
    (sales_order : List SalesOrderRow) (dim_calendar : List CalRow) :
    Except String (List FactShipmentRow) := do
  let df := leftJoin shipment sales_order
    (fun s o => s.order_id == o.order_id) (fun s o => (s, o))
  let shipped := df.map (fun x => parseTs x.1.shipped_at)
  let delivered := df.map (fun x => parseTs x.1.delivered_at)
  let shipped_at_date_id := _get_date_id (df.map (fun x => x.1.shipped_at)) dim_calendar
  let delivered_at_date_id := _get_date_id (df.map (fun x => x.1.delivered_at)) dim_calendar
  let shipped_at_time := _get_time (df.map (fun x => x.1.shipped_at))
  let delivered_at_time := _get_time (df.map (fun x => x.1.delivered_at))
  let dias := (delivered.zip shipped).map (fun p => diasDeEntrega p.1 p.2)
  let customer_id ← astypeIntCol (fillnaCol (-1) (df.map (fun x => x.2.bind (fun o => o.customer_id))))
  let channel_id ← astypeIntCol (fillnaCol (-1) (df.map (fun x => x.2.bind (fun o => o.channel_id))))
  let shipping_address_id ← astypeIntCol (fillnaCol (-1)
    (df.map (fun x => x.2.bind (fun o => o.shipping_address_id))))
  return ((((((((df.zip shipped_at_date_id).zip delivered_at_date_id).zip
      shipped_at_time).zip delivered_at_time).zip dias).zip customer_id).zip
      channel_id).zip shipping_address_id).map
    (fun x =>
      { id := x.1.1.1.1.1.1.1.1.1.shipment_id, customer_id := x.1.1.2,
        shipping_address_id := x.2, channel_id := x.1.2,
        carrier := x.1.1.1.1.1.1.1.1.1.carrier,
        shipped_at_date_id := x.1.1.1.1.1.1.1.2,
        shipped_at_time := x.1.1.1.1.1.2,
        delivered_at_date_id := x.1.1.1.1.1.1.2,
        delivered_at_time := x.1.1.1.1.2,
        tracking_number := x.1.1.1.1.1.1.1.1.1.tracking_number,
        dias_de_entrega := x.1.1.1.2 })

/-- One row of `fact_web_session`. -/
structure FactWebSessionRow where
  id : Int
  customer_id : Int
  started_at_date_id : Option Nat
  started_at_time : String
  ended_at_date_id : Option Nat
  ended_at_time : String
  source : String
  device : String
deriving DecidableEq, Repr

/-- `create_fact_web_session` (event grain): no header join. -/
def create_fact_web_session (web_session : List WebSessionRow)
    (dim_calendar : List CalRow) : Except String (List FactWebSessionRow) := do
  let df := web_session
  let started_at_date_id := _get_date_id (df.map (fun r => r.started_at)) dim_calendar
  let ended_at_date_id := _get_date_id (df.map (fun r => r.ended_at)) dim_calendar
  let started_at_time := _get_time (df.map (fun r => r.started_at))
  let ended_at_time := _get_time (df.map (fun r => r.ended_at))
  let customer_id ← astypeIntCol (fillnaCol (-1) (df.map (fun r => r.customer_id)))
  return (((((df.zip started_at_date_id).zip ended_at_date_id).zip
      started_at_time).zip ended_at_time).zip customer_id).map
    (fun x =>
      { id := x.1.1.1.1.1.session_id, customer_id := x.2,
        started_at_date_id := x.1.1.1.1.2, started_at_time := x.1.1.2,
        ended_at_date_id := x.1.1.1.2, ended_at_time := x.1.2,
        source := x.1.1.1.1.1.source, device := x.1.1.1.1.1.device })

/-- One row of `fact_nps_response`. -/
structure FactNpsResponseRow where
  id : Int
  customer_id : Int
  channel_id : Int
  responded_at_date_id : Option Nat
  responded_at_time : String
  score : Int
deriving DecidableEq, Repr

/-- `create_fact_nps_response` (event grain): no header join. -/
def create_fact_nps_response (nps_response : List NpsResponseRow)
    (dim_calendar : List CalRow) : Except String (List FactNpsResponseRow) := do
  let df := nps_response
  let responded_at_date_id := _get_date_id (df.map (fun r => r.responded_at)) dim_calendar
  let responded_at_time := _get_time (df.map (fun r => r.responded_at))
  let customer_id ← astypeIntCol (fillnaCol (-1) (df.map (fun r => r.customer_id)))
  let channel_id ← astypeIntCol (fillnaCol (-1) (df.map (fun r => r.channel_id)))
  return ((((df.zip responded_at_date_id).zip responded_at_time).zip
      customer_id).zip channel_id).map
    (fun x =>
      { id := x.1.1.1.1.nps_id, customer_id := x.1.2, channel_id := x.2,
        responded_at_date_id := x.1.1.1.2, responded_at_time := x.1.1.2,
        score := x.1.1.1.1.score })

/-! ## The transformation orchestrator -/

/-- The full output set of the transformation. -/
structure DWTables where
  dim_calendar : CalendarDF
  dim_customer : List DimCustomerRow
  dim_product : List DimProductRow
  dim_channel : List DimChannelRow
  dim_address : List DimAddressRow
  dim_store : List DimStoreRow
  fact_sales_order : List FactSalesOrderRow
  fact_sales_order_item : List FactSalesOrderItemRow
  fact_payment : List FactPaymentRow
  fact_shipment : List FactShipmentRow
  fact_web_session : List FactWebSessionRow
  fact_nps_response : List FactNpsResponseRow
deriving DecidableEq, Repr

/-- `transform_all_data`: `None` input aborts with an absent result; otherwise
build the Calendar dimension first, then the other dimensions, then every fact
table against the completed Calendar. -/
def transform_all_data (data? : Option Data) : Option (Except String DWTables) :=
  match data? with
  | none => none
  | some data => some (do
      let dim_calendar := create_dim_calendar data
      let dim_customer := create_dim_customer data.customer
      let dim_product := create_dim_product data.product data.product_category
      let dim_channel := create_dim_channel data.channel
      let dim_address := create_dim_address data.address data.province
      let dim_store := create_dim_store data.store data.address data.province
      let fact_sales_order ← create_fact_sales_order data.sales_order dim_calendar.rows
      let fact_sales_order_item ← create_fact_sales_order_item
        data.sales_order_item data.sales_order dim_calendar.rows
      let fact_payment ← create_fact_payment data.payment data.sales_order dim_calendar.rows
      let fact_shipment ← create_fact_shipment data.shipment data.sales_order dim_calendar.rows
      let fact_web_session ← create_fact_web_session data.web_session dim_calendar.rows
      let fact_nps_response ← create_fact_nps_response data.nps_response dim_calendar.rows
      return { dim_calendar, dim_customer, dim_product, dim_channel, dim_address,
               dim_store, fact_sales_order, fact_sales_order_item, fact_payment,
               fact_shipment, fact_web_session, fact_nps_response })

/-! ## Derived per-row characterizations (proved equal to the builders below) -/

/-- Per-row characterization of `_get_date_id` when the calendar's dates are
unique: parse, normalize, look the day up, return the surrogate key or null. -/
def lookupDateKey (dim_calendar : List CalRow) (c : TCell) : Option Nat :=
  ((parseTs c).map normalizeDay).bind
    (fun d => (dim_calendar.find? (fun r => d == r.date)).map (fun r => r.id))

/-- First order-header row matching an `order_id` (the unique-key image of the
left join in the detail-grain fact builders). -/
def headerFor (sales_order : List SalesOrderRow) (oid : Option Int) :
    Option SalesOrderRow :=
  sales_order.find? (fun o => oid == o.order_id)

/-! ## Concrete sample inputs (used to instantiate the theorems below) -/

/-- A four-day calendar starting at day 19723 (2024-01-01). -/
def sampleCalendar : List CalRow :=
  [mkCalendarRow 1 19723, mkCalendarRow 2 19724, mkCalendarRow 3 19725,
   mkCalendarRow 4 19726]

/-- Two customers whose natural keys arrive out of order. -/
def sampleCustomers : List CustomerRow :=
  [{ customer_id := "C2", email := "c2@x.com", first_name := "Ana",
     last_name := "Diaz", phone := "11", status := "active", created_at := TCell.null },
   { customer_id := "C1", email := "c1@x.com", first_name := "Juan",
     last_name := "Paz", phone := "22", status := "active", created_at := TCell.null }]

/-- A sales order whose nullable relational keys are all null. -/
def orderNullKeys : SalesOrderRow :=
  { order_id := some 1, customer_id := none, channel_id := none, store_id := none,
    order_date := TCell.ts (19723 * 86400), billing_address_id := none,
    shipping_address_id := none, status := "created", currency_code := "ARS",
    subtotal := 100, tax_amount := 21, shipping_fee := 5, total_amount := 126 }

/-- A fully populated sales order header. -/
def sampleOrder : SalesOrderRow :=
  { order_id := some 1, customer_id := some 7, channel_id := some 2,
    store_id := none, order_date := TCell.ts (19723 * 86400 + 3600),
    billing_address_id := some 5, shipping_address_id := none,
    status := "created", currency_code := "ARS", subtotal := 100,
    tax_amount := 21, shipping_fee := 5, total_amount := 126 }

/-- The shipment of the spec scenario: shipped 2024-01-01T00:00:00,
delivered 2024-01-04T00:00:00. -/
def shipScenario : ShipmentRow :=
  { shipment_id := 1, order_id := some 1, carrier := "DHL",
    shipped_at := TCell.ts (19723 * 86400), delivered_at := TCell.ts (19726 * 86400),
    tracking_number := "T1" }

/-- A shipment with a null `delivered_at`. -/
def shipNullDelivered : ShipmentRow :=
  { shipment_id := 2, order_id := some 1, carrier := "DHL",
    shipped_at := TCell.ts (19723 * 86400 + 50), delivered_at := TCell.null,
    tracking_number := "T2" }

/-- One order line. -/
def sampleItems : List SalesOrderItemRow :=
  [{ order_item_id := 1, order_id := some 1, product_id := none, quantity := 2,
     unit_price := 50, discount_amount := 0, line_total := 100 }]

/-- One payment. -/
def samplePayments : List PaymentRow :=
  [{ payment_id := 1, order_id := some 1, method := "card", status := "ok",
     amount := 126, paid_at := TCell.null, transaction_ref := "TX" }]

/-- A product whose `category_id` matches no category row. -/
def sampleProductNoCat : ProductRow :=
  { product_id := "P1", sku := "S", name := "N", list_price := 10, status := "a",
    created_at := TCell.null, category_id := SCell.i 99 }

/-- One product category (id 1, no parent). -/
def sampleCategories : List ProductCategoryRow :=
  [{ category_id := SCell.i 1, parent_id := SCell.null, name := "Botellas" }]

/-- A category whose `parent_id` matches no category row (a self-join miss). -/
def sampleCategoryOrphan : ProductCategoryRow :=
  { category_id := SCell.i 2, parent_id := SCell.i 77, name := "Eco" }

/-- A product whose category exists but whose category's parent is missing. -/
def sampleProductParentMiss : ProductRow :=
  { product_id := "P2", sku := "S2", name := "N2", list_price := 20, status := "a",
    created_at := TCell.null, category_id := SCell.i 2 }

/-- A full snapshot whose only valid designated timestamps fall on one single
calendar day (19723 = 2024-01-01). -/
def sampleData : Data :=
  { address := [{ address_id := 1, line1 := "Calle 1", line2 := "", city := "BA",
                  province_id := some 1, postal_code := "1000", country_code := "AR",
                  created_at := TCell.ts (19723 * 86400 + 100) }]
    channel := [{ channel_id := "web", code := "W", name := "Web" }]
    customer := sampleCustomers
    nps_response := [{ nps_id := 1, customer_id := some 7, channel_id := none,
                       responded_at := TCell.bad, score := 9 }]
    payment := samplePayments
    product := [sampleProductNoCat]
    product_category := sampleCategories
    province := [{ province_id := 1, name := "Buenos Aires", code := "BA" }]
    sales_order := [orderNullKeys]
    sales_order_item := sampleItems
    shipment := [shipNullDelivered]
    store := [{ store_id := "S1", name := "Tienda", address_id := some 1 }]
    web_session := [{ session_id := 1, customer_id := none, started_at := TCell.bad,
                      ended_at := TCell.null, source := "ads", device := "mobile" }] }

/-- A snapshot with no rows anywhere (hence no valid dates). -/
def emptyData : Data :=
  { address := [], channel := [], customer := [], nps_response := [], payment := [],
    product := [], product_category := [], province := [], sales_order := [],
    sales_order_item := [], shipment := [], store := [], web_session := [] }

/-! ## Generic lemmas about the embedded pandas primitives -/

theorem astypeIntCol_fillnaCol (d : Int) (col : List (Option Int)) :
    astypeIntCol (fillnaCol d col) = Except.ok (col.map (fun o => o.getD d)) := by
  induction col with
  | nil => rfl
  | cons a as ih =>
    simp [fillnaCol, astypeIntCol] at ih ⊢
    rw [ih]
    rfl

theorem find?_eq_head_filter (p : α → Bool) (l : List α) :
    l.find? p = (l.filter p).head? := by
  induction l with
  | nil => rfl
  | cons a as ih =>
    by_cases h : p a
    · rw [List.find?_cons_of_pos _ h, List.filter_cons_of_pos h]
      rfl
    · rw [List.find?_cons_of_neg _ (by simp [h]), List.filter_cons_of_neg (by simp [h]), ih]

theorem leftJoin_eq_map (l : List α) (r : List β) (onCols : α → β → Bool)
    (combine : α → Option β → γ)
    (h : ∀ a, (r.filter (onCols a)).length ≤ 1) :
    leftJoin l r onCols combine = l.map (fun a => combine a (r.find? (onCols a))) := by
  induction l with
  | nil => rfl
  | cons a as ih =>
    rw [leftJoin, ih]
    rcases hf : r.filter (onCols a) with _ | ⟨b, bs⟩
    · simp only [List.map_cons]
      rw [find?_eq_head_filter, hf]
      simp
    · have hb : bs = [] := by
        have := h a
        rw [hf] at this
        simpa using this
      subst hb
      simp only [List.map_cons]
      rw [find?_eq_head_filter, hf]
      simp

theorem length_filter_le_one_of_nodup_map (f : β → κ) (r : List β)
    (h : (r.map f).Nodup) (p : β → Bool)
    (hp : ∀ b₁ b₂, p b₁ = true → p b₂ = true → f b₁ = f b₂) :
    (r.filter p).length ≤ 1 := by
  induction r with
  | nil => simp
  | cons b bs ih =>
    simp only [List.map_cons, List.nodup_cons] at h
    by_cases hpb : p b
    · have hempty : bs.filter p = [] := by
        rcases hf : bs.filter p with _ | ⟨b₂, _⟩
        · rfl
        · exfalso
          have hb₂ : b₂ ∈ bs.filter p := by rw [hf]; exact List.mem_cons_self _ _
          rw [List.mem_filter] at hb₂
          have himg : f b₂ ∈ bs.map f := List.mem_map_of_mem f hb₂.1
          rw [← hp b b₂ hpb hb₂.2] at himg
          exact h.1 himg
      rw [List.filter_cons_of_pos hpb, hempty]
      simp
    · rw [List.filter_cons_of_neg (by simp [hpb])]
      exact ih h.2

theorem zip_self_map (f : α → β) (l : List α) :
    l.zip (l.map f) = l.map (fun x => (x, f x)) := by
  induction l with
  | nil => rfl
  | cons a as ih => simp [List.zip_cons_cons, ih]

theorem zip_map_map (f : α → β) (g : α → γ) (l : List α) :
    (l.map f).zip (l.map g) = l.map (fun x => (f x, g x)) := by
  induction l with
  | nil => rfl
  | cons a as ih => simp [List.zip_cons_cons, ih]

theorem _get_date_id_eq_map (col : List TCell) (cal : List CalRow)
    (h : (cal.map (fun r => r.date)).Nodup) :
    _get_date_id col cal = col.map (lookupDateKey cal) := by
  rw [_get_date_id, leftJoin_eq_map, List.map_map]
  · apply List.map_congr_left
    intro c _
    simp only [Function.comp]
    rcases hc : (parseTs c).map normalizeDay with _ | d
    · have hfind : cal.find? (fun r => (none : Option Int) == some r.date) = none := by
        rw [find?_eq_head_filter]
        have hnil : cal.filter (fun r => (none : Option Int) == some r.date) = [] := by
          apply List.filter_eq_nil_iff.mpr
          intro r _
          simp
        rw [hnil]
        rfl
      rw [hfind]
      simp [lookupDateKey, hc]
    · simp only [lookupDateKey, hc, Option.some_bind]
      rfl
  · intro d
    apply length_filter_le_one_of_nodup_map (fun r => r.date) cal h
    intro b₁ b₂ h₁ h₂
    have e₁ : d = some b₁.date := by simpa using h₁
    have e₂ : d = some b₂.date := by simpa using h₂
    rw [e₁] at e₂
    simpa using e₂

theorem length_assignIdsFrom (set : Nat → α → α) (n : Nat) (l : List α) :
    (assignIdsFrom set n l).length = l.length := by
  induction l generalizing n with
  | nil => rfl
  | cons a as ih => simp [assignIdsFrom, ih]

theorem map_assignIdsFrom_of_preserve (set : Nat → α → α) (f : α → β)
    (hf : ∀ n a, f (set n a) = f a) (n : Nat) (l : List α) :
    (assignIdsFrom set n l).map f = l.map f := by
  induction l generalizing n with
  | nil => rfl
  | cons a as ih => simp [assignIdsFrom, ih, hf]

theorem map_id_assignIdsFrom (set : Nat → α → α) (fid : α → Nat)
    (hid : ∀ n a, fid (set n a) = n) (n : Nat) (l : List α) :
    (assignIdsFrom set n l).map fid = List.range' n l.length := by
  induction l generalizing n with
  | nil => rfl
  | cons a as ih => simp [assignIdsFrom, hid, List.range'_succ, ih]

theorem mem_assignIdsFrom_of_mem (set : Nat → α → α) (l : List α)
    (a : α) (ha : a ∈ l) (n : Nat) : ∃ m, set m a ∈ assignIdsFrom set n l := by
  induction l generalizing n with
  | nil => cases ha
  | cons b bs ih =>
    rcases List.mem_cons.mp ha with rfl | hmem
    · exact ⟨n, List.mem_cons_self _ _⟩
    · obtain ⟨m, hm⟩ := ih hmem (n + 1)
      exact ⟨m, List.mem_cons_of_mem _ hm⟩

theorem sorted_sort_values (key : α → κ) [LinearOrder κ] (l : List α) :
    (sort_values key l).Pairwise (fun a b => key a ≤ key b) := by
  haveI : IsTotal α (fun a b => key a ≤ key b) := ⟨fun a b => le_total (key a) (key b)⟩
  haveI : IsTrans α (fun a b => key a ≤ key b) := ⟨fun _ _ _ h₁ h₂ => le_trans h₁ h₂⟩
  exact List.sorted_insertionSort _ l

theorem perm_sort_values (key : α → κ) [LinearOrder κ] (l : List α) :
    (sort_values key l).Perm l :=
  List.perm_insertionSort _ l

theorem pairwise_key_assignIdsFrom (set : Nat → α → α) (key : α → κ)
    [LinearOrder κ] (hk : ∀ n a, key (set n a) = key a) (n : Nat) (l : List α)
    (hl : l.Pairwise (fun a b => key a ≤ key b)) :
    (assignIdsFrom set n l).Pairwise (fun a b => key a ≤ key b) := by
  have h₁ : ((assignIdsFrom set n l).map key).Pairwise (fun x y => x ≤ y) := by
    rw [map_assignIdsFrom_of_preserve set key hk]
    exact (List.pairwise_map).mpr hl
  exact (List.pairwise_map).mp h₁

theorem foldl_min_le_init (ds : List Int) (d : Int) : ds.foldl min d ≤ d := by
  induction ds generalizing d with
  | nil => exact le_refl d
  | cons e es ih => exact le_trans (ih (min d e)) (min_le_left d e)

theorem le_foldl_max_init (ds : List Int) (d : Int) : d ≤ ds.foldl max d := by
  induction ds generalizing d with
  | nil => exact le_refl d
  | cons e es ih => exact le_trans (le_max_left d e) (ih (max d e))

theorem seriesMin_le_seriesMax (l : List Int) (h : l ≠ []) :
    seriesMin l ≤ seriesMax l := by
  rcases l with _ | ⟨d, ds⟩
  · exact absurd rfl h
  · exact le_trans (foldl_min_le_init ds d) (le_foldl_max_init ds d)

theorem ok_bind {ε α β : Type} (a : α) (f : α → Except ε β) :
    (Except.ok a : Except ε α) >>= f = f a := rfl

theorem pure_eq_ok {ε α : Type} (a : α) :
    (pure a : Except ε α) = Except.ok a := rfl

/-- Row-level normal form of `create_fact_sales_order` over calendars with
unique dates. -/
theorem create_fact_sales_order_eq (so : List SalesOrderRow) (cal : List CalRow)
    (h : (cal.map (fun r => r.date)).Nodup) :
    create_fact_sales_order so cal = Except.ok (so.map (fun r =>
      { id := r.order_id, customer_id := r.customer_id, channel_id := r.channel_id,
        store_id := r.store_id.getD (-1),
        order_date_id := lookupDateKey cal r.order_date,
        order_time := timeOfCell r.order_date,
        billing_address_id := r.billing_address_id.getD (-1),
        shipping_address_id := r.shipping_address_id.getD (-1),
        status_order := r.status, currency_code := r.currency_code,
        subtotal := r.subtotal, tax_amount := r.tax_amount,
        shipping_fee := r.shipping_fee, total_amount := r.total_amount })) := by
  unfold create_fact_sales_order
  simp only [astypeIntCol_fillnaCol, _get_date_id_eq_map _ _ h, _get_time,
    ok_bind, pure_eq_ok, List.map_map, zip_self_map, zip_map_map]
  rfl

theorem order_filter_length_le_one (sales_order : List SalesOrderRow)
    (h : (sales_order.map (fun o => o.order_id)).Nodup) (oid : Option Int) :
    (sales_order.filter (fun o => oid == o.order_id)).length ≤ 1 := by
  apply length_filter_le_one_of_nodup_map (fun o => o.order_id) sales_order h
  intro b₁ b₂ h₁ h₂
  have e₁ : oid = b₁.order_id := by simpa using h₁
  have e₂ : oid = b₂.order_id := by simpa using h₂
  rw [← e₁, ← e₂]

/-- Row-level normal form of `create_fact_sales_order_item` over unique order
ids and calendars with unique dates. -/
theorem create_fact_sales_order_item_eq (items : List SalesOrderItemRow)
    (so : List SalesOrderRow) (cal : List CalRow)
    (ho : (so.map (fun o => o.order_id)).Nodup)
    (h : (cal.map (fun r => r.date)).Nodup) :
    create_fact_sales_order_item items so cal = Except.ok (items.map (fun it =>
      { id := it.order_item_id, order_id := it.order_id,
        customer_id := ((headerFor so it.order_id).bind (fun o => o.customer_id)).getD (-1),
        channel_id := ((headerFor so it.order_id).bind (fun o => o.channel_id)).getD (-1),
        store_id := ((headerFor so it.order_id).bind (fun o => o.store_id)).getD (-1),
        product_id := it.product_id.getD (-1),
        order_date_id := lookupDateKey cal
          (((headerFor so it.order_id).map (fun o => o.order_date)).getD TCell.null),
        quantity := it.quantity, unit_price := it.unit_price,
        discount_amount := it.discount_amount, line_total := it.line_total })) := by
  simp only [create_fact_sales_order_item,
    leftJoin_eq_map _ _ _ _ (fun it : SalesOrderItemRow => order_filter_length_le_one so ho it.order_id),
    astypeIntCol_fillnaCol, _get_date_id_eq_map _ _ h, _get_time,
    ok_bind, pure_eq_ok, List.map_map, zip_self_map, zip_map_map]
  rfl

/-- Row-level normal form of `create_fact_payment` over unique order ids and
calendars with unique dates. -/
theorem create_fact_payment_eq (payments : List PaymentRow)
    (so : List SalesOrderRow) (cal : List CalRow)
    (ho : (so.map (fun o => o.order_id)).Nodup)
    (h : (cal.map (fun r => r.date)).Nodup) :
    create_fact_payment payments so cal = Except.ok (payments.map (fun p =>
      { id := p.payment_id,
        customer_id := ((headerFor so p.order_id).bind (fun o => o.customer_id)).getD (-1),
        billing_address_id :=
          ((headerFor so p.order_id).bind (fun o => o.billing_address_id)).getD (-1),
        channel_id := ((headerFor so p.order_id).bind (fun o => o.channel_id)).getD (-1),
        store_id := ((headerFor so p.order_id).bind (fun o => o.store_id)).getD (-1),
        method := p.method, status_payment := p.status, amount := p.amount,
        paid_at_date_id := lookupDateKey cal p.paid_at,
        paid_at_time := timeOfCell p.paid_at,
        transaction_ref := p.transaction_ref })) := by
  simp only [create_fact_payment,
    leftJoin_eq_map _ _ _ _ (fun p : PaymentRow => order_filter_length_le_one so ho p.order_id),
    astypeIntCol_fillnaCol, _get_date_id_eq_map _ _ h, _get_time,
    ok_bind, pure_eq_ok, List.map_map, zip_self_map, zip_map_map]
  rfl

/-- Row-level normal form of `create_fact_shipment` over unique order ids and
calendars with unique dates. -/
theorem create_fact_shipment_eq (shipments : List ShipmentRow)
    (so : List SalesOrderRow) (cal : List CalRow)
    (ho : (so.map (fun o => o.order_id)).Nodup)
    (h : (cal.map (fun r => r.date)).Nodup) :
    create_fact_shipment shipments so cal = Except.ok (shipments.map (fun s =>
      { id := s.shipment_id,
        customer_id := ((headerFor so s.order_id).bind (fun o => o.customer_id)).getD (-1),
        shipping_address_id :=
          ((headerFor so s.order_id).bind (fun o => o.shipping_address_id)).getD (-1),
        channel_id := ((headerFor so s.order_id).bind (fun o => o.channel_id)).getD (-1),
        carrier := s.carrier,
        shipped_at_date_id := lookupDateKey cal s.shipped_at,
        shipped_at_time := timeOfCell s.shipped_at,
        delivered_at_date_id := lookupDateKey cal s.delivered_at,
        delivered_at_time := timeOfCell s.delivered_at,
        tracking_number := s.tracking_number,
        dias_de_entrega := diasDeEntrega (parseTs s.delivered_at) (parseTs s.shipped_at) })) := by
  simp only [create_fact_shipment,
    leftJoin_eq_map _ _ _ _ (fun s : ShipmentRow => order_filter_length_le_one so ho s.order_id),
    astypeIntCol_fillnaCol, _get_date_id_eq_map _ _ h, _get_time,
    ok_bind, pure_eq_ok, List.map_map, zip_self_map, zip_map_map]
  rfl

/-- Row-level normal form of `create_fact_web_session` over calendars with
unique dates. -/
theorem create_fact_web_session_eq (ws : List WebSessionRow) (cal : List CalRow)
    (h : (cal.map (fun r => r.date)).Nodup) :
    create_fact_web_session ws cal = Except.ok (ws.map (fun w =>
      { id := w.session_id, customer_id := w.customer_id.getD (-1),
        started_at_date_id := lookupDateKey cal w.started_at,
        started_at_time := timeOfCell w.started_at,
        ended_at_date_id := lookupDateKey cal w.ended_at,
        ended_at_time := timeOfCell w.ended_at,
        source := w.source, device := w.device })) := by
  simp only [create_fact_web_session, astypeIntCol_fillnaCol,
    _get_date_id_eq_map _ _ h, _get_time,
    ok_bind, pure_eq_ok, List.map_map, zip_self_map, zip_map_map]
  rfl

/-- Row-level normal form of `create_fact_nps_response` over calendars with
unique dates. -/
theorem create_fact_nps_response_eq (nps : List NpsResponseRow) (cal : List CalRow)
    (h : (cal.map (fun r => r.date)).Nodup) :
    create_fact_nps_response nps cal = Except.ok (nps.map (fun n =>
      { id := n.nps_id, customer_id := n.customer_id.getD (-1),
        channel_id := n.channel_id.getD (-1),
        responded_at_date_id := lookupDateKey cal n.responded_at,
        responded_at_time := timeOfCell n.responded_at,
        score := n.score })) := by
  simp only [create_fact_nps_response, astypeIntCol_fillnaCol,
    _get_date_id_eq_map _ _ h, _get_time,
    ok_bind, pure_eq_ok, List.map_map, zip_self_map, zip_map_map]
  rfl

theorem calendar_rows_map_date (data : Data) (h : all_dates_normalized data ≠ []) :
    (create_dim_calendar data).rows.map (fun r => r.date)
      = date_range (seriesMin (all_dates_normalized data))
          (seriesMax (all_dates_normalized data)) := by
  simp only [create_dim_calendar, if_neg h, assignIds]
  rw [map_assignIdsFrom_of_preserve (fun i (r : CalRow) => { r with id := i })
    (fun r : CalRow => r.date) (fun n a => rfl), List.map_map]
  have hcomp : ((fun r : CalRow => r.date) ∘ mkCalendarRow 0) = id := by
    funext d
    rfl
  rw [hcomp, List.map_id]

theorem pairwise_lt_date_range (mn mx : Int) :
    (date_range mn mx).Pairwise (fun a b => a < b) := by
  rw [date_range]
  refine List.Pairwise.map _ (fun a b hab => ?_) (List.pairwise_lt_range _)
  omega

theorem calendar_dates_nodup (data : Data) :
    ((create_dim_calendar data).rows.map (fun r => r.date)).Nodup := by
  by_cases h : all_dates_normalized data = []
  · simp [create_dim_calendar, h]
  · rw [calendar_rows_map_date data h]
    exact (pairwise_lt_date_range _ _).imp (fun hlt => ne_of_lt hlt)

theorem length_date_range (mn mx : Int) :
    (date_range mn mx).length = (mx - mn).toNat + 1 := by
  rw [date_range, List.length_map, List.length_range]

/-- C1: whenever the designated source columns contain at least one valid
timestamp, `dim_calendar` has exactly `(max date − min date in days) + 1` rows;
its dates are the gapless consecutive days starting at the minimum (so a
one-day span yields exactly one row), the surrogate key column is exactly
`1, 2, …, N` in date-ascending order, and consequently `id` is strictly
ascending in `date`. -/
theorem spec_C1_calendar_span (data : Data) (h : all_dates_normalized data ≠ []) :
    (create_dim_calendar data).rows.length
        = (seriesMax (all_dates_normalized data)
            - seriesMin (all_dates_normalized data)).toNat + 1 ∧
    seriesMin (all_dates_normalized data) ≤ seriesMax (all_dates_normalized data) ∧
    (create_dim_calendar data).rows.map (fun r => r.date)
        = (List.range ((create_dim_calendar data).rows.length)).map
            (fun (k : Nat) => seriesMin (all_dates_normalized data) + (k : Int)) ∧
    (create_dim_calendar data).rows.map (fun r => r.id)
        = List.range' 1 ((create_dim_calendar data).rows.length) ∧
    (create_dim_calendar data).rows.Pairwise
        (fun a b => a.id < b.id ∧ a.date < b.date) := by
  have hlen : (create_dim_calendar data).rows.length
      = (seriesMax (all_dates_normalized data)
          - seriesMin (all_dates_normalized data)).toNat + 1 := by
    have := congrArg List.length (calendar_rows_map_date data h)
    simpa [length_date_range] using this
  refine ⟨hlen, seriesMin_le_seriesMax _ h, ?_, ?_, ?_⟩
  · rw [calendar_rows_map_date data h, hlen, date_range]
  · rw [hlen]
    simp only [create_dim_calendar, if_neg h, assignIds]
    rw [map_id_assignIdsFrom (fun i (r : CalRow) => { r with id := i })
      (fun r : CalRow => r.id) (fun n a => rfl)]
    simp [length_date_range]
  · have hdate : (create_dim_calendar data).rows.Pairwise
        (fun a b => a.date < b.date) := by
      apply (List.pairwise_map).mp
      rw [calendar_rows_map_date data h]
      exact pairwise_lt_date_range _ _
    have hid : (create_dim_calendar data).rows.Pairwise (fun a b => a.id < b.id) := by
      apply (List.pairwise_map).mp
      rw [show (create_dim_calendar data).rows.map (fun r => r.id)
            = List.range' 1 ((create_dim_calendar data).rows.length) from ?_]
      · exact List.pairwise_lt_range' _ _
      · rw [hlen]
        simp only [create_dim_calendar, if_neg h, assignIds]
        rw [map_id_assignIdsFrom (fun i (r : CalRow) => { r with id := i })
          (fun r : CalRow => r.id) (fun n a => rfl)]
        simp [length_date_range]
    exact hid.and hdate

/-- Witness for C1 at a concrete one-day snapshot: the hypotheses hold and the
span formula yields exactly one calendar row. -/
theorem spec_C1_witness :
    ((create_dim_calendar sampleData).rows.length
        = (seriesMax (all_dates_normalized sampleData)
            - seriesMin (all_dates_normalized sampleData)).toNat + 1) ∧
    (create_dim_calendar sampleData).rows.length = 1 :=
  ⟨(spec_C1_calendar_span sampleData (by decide)).1, by decide⟩

theorem dim_builder_spec (key : α → κ) [LinearOrder κ] (fid : α → Nat)
    (set : Nat → α → α) (hid : ∀ n a, fid (set n a) = n)
    (hk : ∀ n a, key (set n a) = key a) (df : List α) :
    (assignIds set (sort_values key df)).map fid
        = List.range' 1 (assignIds set (sort_values key df)).length ∧
    (assignIds set (sort_values key df)).Pairwise (fun a b => key a ≤ key b) := by
  constructor
  · rw [assignIds, map_id_assignIdsFrom set fid hid, length_assignIdsFrom]
  · exact pairwise_key_assignIdsFrom set key hk 1 _ (sorted_sort_values key df)

/-- C2: in every dimension builder the surrogate keys are exactly
`1, 2, …, N` in output order (a dense 1-based assignment by row position), the
output is sorted ascending by the natural key, the assignment is deterministic
in the input, and the two-customer scenario sorts `"C1"` before `"C2"` with
ids 1 and 2. -/
theorem spec_C2_dim_surrogate_keys :
    (∀ customer : List CustomerRow,
      (create_dim_customer customer).map (fun r => r.id)
          = List.range' 1 (create_dim_customer customer).length ∧
      (create_dim_customer customer).Pairwise
          (fun a b => a.customer_key ≤ b.customer_key)) ∧
    (∀ channel : List ChannelRow,
      (create_dim_channel channel).map (fun r => r.id)
          = List.range' 1 (create_dim_channel channel).length ∧
      (create_dim_channel channel).Pairwise
          (fun a b => a.channel_key ≤ b.channel_key)) ∧
    (∀ (address : List AddressRow) (province : List ProvinceRow),
      (create_dim_address address province).map (fun r => r.id)
          = List.range' 1 (create_dim_address address province).length ∧
      (create_dim_address address province).Pairwise
          (fun a b => a.address_key ≤ b.address_key)) ∧
    (∀ (product : List ProductRow) (product_category : List ProductCategoryRow),
      (create_dim_product product product_category).map (fun r => r.id)
          = List.range' 1 (create_dim_product product product_category).length ∧
      (create_dim_product product product_category).Pairwise
          (fun a b => a.product_key ≤ b.product_key)) ∧
    (∀ (store : List StoreRow) (address : List AddressRow)
        (province : List ProvinceRow),
      (create_dim_store store address province).map (fun r => r.id)
          = List.range' 1 (create_dim_store store address province).length ∧
      (create_dim_store store address province).Pairwise
          (fun a b => a.store_key ≤ b.store_key)) ∧
    (∀ d₁ d₂ : List CustomerRow, d₁ = d₂ →
      create_dim_customer d₁ = create_dim_customer d₂) ∧
    (create_dim_customer sampleCustomers).map (fun r => (r.id, r.customer_key))
        = [(1, "C1"), (2, "C2")] := by
  refine ⟨fun customer => ?_, fun channel => ?_, fun address province => ?_,
    fun product product_category => ?_, fun store address province => ?_,
    fun d₁ d₂ hd => by rw [hd], by decide⟩
  · obtain ⟨h₁, h₂⟩ := dim_builder_spec (fun r : DimCustomerRow => r.customer_key.toList)
      (fun r => r.id) (fun i (r : DimCustomerRow) => { r with id := i })
      (fun n a => rfl) (fun n a => rfl)
      (customer.map (fun c =>
        { id := 0, customer_key := c.customer_id, email := c.email,
          first_name := c.first_name, last_name := c.last_name, phone := c.phone,
          status := c.status, created_at := c.created_at }))
    exact ⟨h₁, h₂.imp (fun hab => String.le_iff_toList_le.mpr hab)⟩
  · obtain ⟨h₁, h₂⟩ := dim_builder_spec (fun r : DimChannelRow => r.channel_key.toList)
      (fun r => r.id) (fun i (r : DimChannelRow) => { r with id := i })
      (fun n a => rfl) (fun n a => rfl)
      (channel.map (fun c =>
        { id := 0, channel_key := c.channel_id, code := c.code, name := c.name }))
    exact ⟨h₁, h₂.imp (fun hab => String.le_iff_toList_le.mpr hab)⟩
  · exact dim_builder_spec (fun r : DimAddressRow => r.address_key)
      (fun r => r.id) (fun i (r : DimAddressRow) => { r with id := i })
      (fun n a => rfl) (fun n a => rfl) _
  · obtain ⟨h₁, h₂⟩ := dim_builder_spec (fun r : DimProductRow => r.product_key.toList)
      (fun r => r.id) (fun i (r : DimProductRow) => { r with id := i })
      (fun n a => rfl) (fun n a => rfl) _
    exact ⟨h₁, h₂.imp (fun hab => String.le_iff_toList_le.mpr hab)⟩
  · obtain ⟨h₁, h₂⟩ := dim_builder_spec (fun r : DimStoreRow => r.store_key.toList)
      (fun r => r.id) (fun i (r : DimStoreRow) => { r with id := i })
      (fun n a => rfl) (fun n a => rfl) _
    exact ⟨h₁, h₂.imp (fun hab => String.le_iff_toList_le.mpr hab)⟩

/-- Witness for C2 at the concrete two-customer input. -/
theorem spec_C2_witness :
    ((create_dim_customer sampleCustomers).map (fun r => r.id)
        = List.range' 1 (create_dim_customer sampleCustomers).length ∧
      (create_dim_customer sampleCustomers).Pairwise
        (fun a b => a.customer_key ≤ b.customer_key)) ∧
    create_dim_customer sampleCustomers = create_dim_customer sampleCustomers :=
  ⟨spec_C2_dim_surrogate_keys.1 sampleCustomers,
   spec_C2_dim_surrogate_keys.2.2.2.2.2.1 sampleCustomers sampleCustomers rfl⟩

/-- C3 counterexample: `create_fact_sales_order` carries `customer_id` and
`channel_id` verbatim, so a sales order whose `customer_id` and `channel_id`
are null produces a fact row in which they are still null, while the cleaned
`store_id` becomes `-1` — refuting "every relational foreign-key field that is
null is replaced by -1". -/
theorem spec_C3_counterexample :
    (create_fact_sales_order [orderNullKeys] []).map
        (fun rows => rows.map (fun r => (r.customer_id, r.channel_id, r.store_id)))
      = Except.ok [(none, none, -1)] := by
  rfl

/-- C3 (amended): in every fact builder, exactly the relational foreign-key
fields that the builder cleans with `fillna(-1).astype(int)` are replaced by
the sentinel `-1` when null/absent (and are never null and never dropped: one
output value per row); identifier fields carried verbatim (`customer_id` and
`channel_id` in `fact_sales_order`, `order_id` in `fact_sales_order_item`)
keep their source value, nulls included. In particular a `sales_order` row
with null `store_id` yields `store_id = -1` in `fact_sales_order`. -/
theorem spec_C3_sentinel_cleaned_keys :
    (∀ (so : List SalesOrderRow) (cal : List CalRow),
      (cal.map (fun r => r.date)).Nodup →
      ∃ rows, create_fact_sales_order so cal = Except.ok rows ∧
        rows.map (fun r => r.store_id) = so.map (fun r => r.store_id.getD (-1)) ∧
        rows.map (fun r => r.billing_address_id)
            = so.map (fun r => r.billing_address_id.getD (-1)) ∧
        rows.map (fun r => r.shipping_address_id)
            = so.map (fun r => r.shipping_address_id.getD (-1)) ∧
        rows.map (fun r => r.customer_id) = so.map (fun r => r.customer_id) ∧
        rows.map (fun r => r.channel_id) = so.map (fun r => r.channel_id)) ∧
    (∀ (items : List SalesOrderItemRow) (so : List SalesOrderRow) (cal : List CalRow),
      (so.map (fun o => o.order_id)).Nodup → (cal.map (fun r => r.date)).Nodup →
      ∃ rows, create_fact_sales_order_item items so cal = Except.ok rows ∧
        rows.map (fun r => r.store_id)
            = items.map (fun it => ((headerFor so it.order_id).bind
                (fun o => o.store_id)).getD (-1)) ∧
        rows.map (fun r => r.customer_id)
            = items.map (fun it => ((headerFor so it.order_id).bind
                (fun o => o.customer_id)).getD (-1)) ∧
        rows.map (fun r => r.channel_id)
            = items.map (fun it => ((headerFor so it.order_id).bind
                (fun o => o.channel_id)).getD (-1)) ∧
        rows.map (fun r => r.product_id)
            = items.map (fun it => it.product_id.getD (-1)) ∧
        rows.map (fun r => r.order_id) = items.map (fun it => it.order_id)) ∧
    (∀ (payments : List PaymentRow) (so : List SalesOrderRow) (cal : List CalRow),
      (so.map (fun o => o.order_id)).Nodup → (cal.map (fun r => r.date)).Nodup →
      ∃ rows, create_fact_payment payments so cal = Except.ok rows ∧
        rows.map (fun r => r.store_id)
            = payments.map (fun p => ((headerFor so p.order_id).bind
                (fun o => o.store_id)).getD (-1)) ∧
        rows.map (fun r => r.customer_id)
            = payments.map (fun p => ((headerFor so p.order_id).bind
                (fun o => o.customer_id)).getD (-1)) ∧
        rows.map (fun r => r.channel_id)
            = payments.map (fun p => ((headerFor so p.order_id).bind
                (fun o => o.channel_id)).getD (-1)) ∧
        rows.map (fun r => r.billing_address_id)
            = payments.map (fun p => ((headerFor so p.order_id).bind
                (fun o => o.billing_address_id)).getD (-1))) ∧
    (∀ (shipments : List ShipmentRow) (so : List SalesOrderRow) (cal : List CalRow),
      (so.map (fun o => o.order_id)).Nodup → (cal.map (fun r => r.date)).Nodup →
      ∃ rows, create_fact_shipment shipments so cal = Except.ok rows ∧
        rows.map (fun r => r.customer_id)
            = shipments.map (fun s => ((headerFor so s.order_id).bind
                (fun o => o.customer_id)).getD (-1)) ∧
        rows.map (fun r => r.channel_id)
            = shipments.map (fun s => ((headerFor so s.order_id).bind
                (fun o => o.channel_id)).getD (-1)) ∧
        rows.map (fun r => r.shipping_address_id)
            = shipments.map (fun s => ((headerFor so s.order_id).bind
                (fun o => o.shipping_address_id)).getD (-1))) ∧
    (∀ (ws : List WebSessionRow) (cal : List CalRow),
      (cal.map (fun r => r.date)).Nodup →
      ∃ rows, create_fact_web_session ws cal = Except.ok rows ∧
        rows.map (fun r => r.customer_id)
            = ws.map (fun w => w.customer_id.getD (-1))) ∧
    (∀ (nps : List NpsResponseRow) (cal : List CalRow),
      (cal.map (fun r => r.date)).Nodup →
      ∃ rows, create_fact_nps_response nps cal = Except.ok rows ∧
        rows.map (fun r => r.customer_id)
            = nps.map (fun n => n.customer_id.getD (-1)) ∧
        rows.map (fun r => r.channel_id)
            = nps.map (fun n => n.channel_id.getD (-1))) := by
  refine ⟨fun so cal h => ⟨_, create_fact_sales_order_eq so cal h, ?_, ?_, ?_, ?_, ?_⟩,
    fun items so cal ho h =>
      ⟨_, create_fact_sales_order_item_eq items so cal ho h, ?_, ?_, ?_, ?_, ?_⟩,
    fun payments so cal ho h =>
      ⟨_, create_fact_payment_eq payments so cal ho h, ?_, ?_, ?_, ?_⟩,
    fun shipments so cal ho h =>
      ⟨_, create_fact_shipment_eq shipments so cal ho h, ?_, ?_, ?_⟩,
    fun ws cal h => ⟨_, create_fact_web_session_eq ws cal h, ?_⟩,
    fun nps cal h => ⟨_, create_fact_nps_response_eq nps cal h, ?_, ?_⟩⟩ <;>
  simp [List.map_map]

/-- Witness for C3's amended claim at a concrete input: the fact builder runs,
the null `store_id` becomes `-1` while the verbatim `customer_id` column
equals the source (here: null). -/
theorem spec_C3_witness :
    (∃ rows, create_fact_sales_order [orderNullKeys] sampleCalendar
        = Except.ok rows ∧
      rows.map (fun r => r.store_id)
          = [orderNullKeys].map (fun r => r.store_id.getD (-1)) ∧
      rows.map (fun r => r.billing_address_id)
          = [orderNullKeys].map (fun r => r.billing_address_id.getD (-1)) ∧
      rows.map (fun r => r.shipping_address_id)
          = [orderNullKeys].map (fun r => r.shipping_address_id.getD (-1)) ∧
      rows.map (fun r => r.customer_id) = [orderNullKeys].map (fun r => r.customer_id) ∧
      rows.map (fun r => r.channel_id) = [orderNullKeys].map (fun r => r.channel_id)) ∧
    (create_fact_sales_order [orderNullKeys] sampleCalendar).map
        (fun rows => rows.map (fun r => r.store_id)) = Except.ok [-1] :=
  ⟨spec_C3_sentinel_cleaned_keys.1 [orderNullKeys] sampleCalendar (by decide), by rfl⟩

/-- C4: against a Calendar dimension (dates unique by construction),
`_get_date_id` is exactly the per-row map that parses each value
(unparseable → null), discards the time of day, and left-looks-up the day in
the calendar returning its surrogate key — hence row order and row count are
preserved; a parse failure yields null, and a lookup miss is left null (not
coerced to a sentinel). -/
theorem spec_C4_date_key_resolution (col : List TCell) (cal : List CalRow)
    (h : (cal.map (fun r => r.date)).Nodup) :
    _get_date_id col cal = col.map (lookupDateKey cal) ∧
    (_get_date_id col cal).length = col.length ∧
    (∀ c, parseTs c = none → lookupDateKey cal c = none) ∧
    (∀ c t, parseTs c = some t → (∀ r ∈ cal, r.date ≠ normalizeDay t) →
      lookupDateKey cal c = none) := by
  refine ⟨_get_date_id_eq_map col cal h, ?_, ?_, ?_⟩
  · rw [_get_date_id_eq_map col cal h, List.length_map]
  · intro c hc
    simp [lookupDateKey, hc]
  · intro c t hc hmiss
    have hfind : cal.find? (fun x => normalizeDay t == x.date) = none := by
      apply List.find?_eq_none.mpr
      intro x hx
      simp only [beq_iff_eq]
      exact fun he => (hmiss x hx) he.symm
    simp [lookupDateKey, hc, hfind]

/-- Witness for C4 at a concrete column and calendar: an in-range timestamp
resolves to the surrogate key, a null, an unparseable value and an
out-of-range date all resolve to null, preserving count and order. -/
theorem spec_C4_witness :
    (_get_date_id [TCell.ts (19723 * 86400 + 3600), TCell.null, TCell.bad,
        TCell.ts (19900 * 86400)] sampleCalendar
      = [TCell.ts (19723 * 86400 + 3600), TCell.null, TCell.bad,
          TCell.ts (19900 * 86400)].map (lookupDateKey sampleCalendar)) ∧
    _get_date_id [TCell.ts (19723 * 86400 + 3600), TCell.null, TCell.bad,
        TCell.ts (19900 * 86400)] sampleCalendar
      = [some 1, none, none, none] :=
  ⟨(spec_C4_date_key_resolution _ sampleCalendar (by decide)).1, by rfl⟩

/-- C5: in `fact_shipment` the derived measure `dias_de_entrega` is the
whole-day difference `delivered_at − shipped_at` of the two parsed
timestamps, and it is null (never defaulted) whenever either endpoint is
missing or unparseable. -/
theorem spec_C5_dias_de_entrega (shipments : List ShipmentRow)
    (so : List SalesOrderRow) (cal : List CalRow)
    (ho : (so.map (fun o => o.order_id)).Nodup)
    (h : (cal.map (fun r => r.date)).Nodup) :
    ∃ rows, create_fact_shipment shipments so cal = Except.ok rows ∧
      rows.map (fun r => r.dias_de_entrega)
        = shipments.map (fun s =>
            diasDeEntrega (parseTs s.delivered_at) (parseTs s.shipped_at)) ∧
      (∀ d sdt : Int, diasDeEntrega (some d) (some sdt)
          = some ((d - sdt).fdiv 86400)) ∧
      (∀ o : Option Int, diasDeEntrega none o = none) ∧
      (∀ o : Option Int, diasDeEntrega o none = none) := by
  refine ⟨_, create_fact_shipment_eq shipments so cal ho h, ?_, fun d sdt => rfl,
    fun o => rfl, fun o => ?_⟩
  · simp [List.map_map]
  · cases o <;> rfl

/-- Witness for C5: shipped `2024-01-01T00:00:00` and delivered
`2024-01-04T00:00:00` yield `dias_de_entrega = 3`; a null `delivered_at`
yields null. -/
theorem spec_C5_witness :
    (∃ rows, create_fact_shipment [shipScenario, shipNullDelivered] [sampleOrder]
          sampleCalendar = Except.ok rows ∧
      rows.map (fun r => r.dias_de_entrega)
        = [shipScenario, shipNullDelivered].map (fun s =>
            diasDeEntrega (parseTs s.delivered_at) (parseTs s.shipped_at)) ∧
      (∀ d sdt : Int, diasDeEntrega (some d) (some sdt)
          = some ((d - sdt).fdiv 86400)) ∧
      (∀ o : Option Int, diasDeEntrega none o = none) ∧
      (∀ o : Option Int, diasDeEntrega o none = none)) ∧
    (create_fact_shipment [shipScenario, shipNullDelivered] [sampleOrder]
        sampleCalendar).map (fun rows => rows.map (fun r => r.dias_de_entrega))
      = Except.ok [some 3, none] :=
  ⟨spec_C5_dias_de_entrega [shipScenario, shipNullDelivered] [sampleOrder]
      sampleCalendar (by decide) (by decide), by rfl⟩

theorem eq_of_mem_leftJoin {l : List α} {r : List β} {onCols : α → β → Bool}
    {combine : α → Option β → γ} {x : γ} (hx : x ∈ leftJoin l r onCols combine) :
    ∃ a ∈ l, ∃ ob, x = combine a ob := by
  induction l with
  | nil => cases hx
  | cons a as ih =>
    rw [leftJoin] at hx
    rcases List.mem_append.mp hx with hx₁ | hx₂
    · by_cases he : (r.filter (onCols a)).isEmpty
      · rw [if_pos he] at hx₁
        rcases List.mem_singleton.mp hx₁ with rfl
        exact ⟨a, List.mem_cons_self _ _, none, rfl⟩
      · rw [if_neg he] at hx₁
        obtain ⟨b, _, rfl⟩ := List.mem_map.mp hx₁
        exact ⟨a, List.mem_cons_self _ _, some b, rfl⟩
    · obtain ⟨a', ha', ob, rfl⟩ := ih hx₂
      exact ⟨a', List.mem_cons_of_mem _ ha', ob, rfl⟩

theorem combine_none_mem_leftJoin {l : List α} {r : List β} {onCols : α → β → Bool}
    {combine : α → Option β → γ} {a : α} (ha : a ∈ l)
    (hf : r.filter (onCols a) = []) :
    combine a none ∈ leftJoin l r onCols combine := by
  induction l with
  | nil => cases ha
  | cons b bs ih =>
    rw [leftJoin]
    rcases List.mem_cons.mp ha with rfl | hmem
    · apply List.mem_append.mpr
      left
      rw [hf]
      simp
    · exact List.mem_append.mpr (Or.inr (ih hmem))

theorem combine_some_mem_leftJoin {l : List α} {r : List β} {onCols : α → β → Bool}
    {combine : α → Option β → γ} {a : α} {b : β} (ha : a ∈ l) (hb : b ∈ r)
    (hab : onCols a b = true) :
    combine a (some b) ∈ leftJoin l r onCols combine := by
  induction l with
  | nil => cases ha
  | cons x xs ih =>
    rw [leftJoin]
    rcases List.mem_cons.mp ha with rfl | hmem
    · apply List.mem_append.mpr
      left
      have hbf : b ∈ r.filter (onCols a) := List.mem_filter.mpr ⟨hb, hab⟩
      have hne : (r.filter (onCols a)).isEmpty = false := by
        rcases hf : r.filter (onCols a) with _ | _
        · rw [hf] at hbf
          cases hbf
        · rfl
      rw [if_neg (by simp [hne])]
      exact List.mem_map.mpr ⟨b, hbf, rfl⟩
    · exact List.mem_append.mpr (Or.inr (ih hmem))

/-- C6: both category joins of `dim_product` compare identifiers as text
(`astype(str)` images), and each missing link of the hierarchy is defaulted to
the literal `"Sin Categoría"` rather than left null: a product whose text
category id matches no category row gets both labels defaulted, and a product
whose category matches but whose category's `parent_id` matches no category
row keeps its category's name and gets the parent label defaulted. -/
theorem spec_C6_product_category_default (product : List ProductRow)
    (product_category : List ProductCategoryRow) :
    (∀ p ∈ product,
      (∀ c ∈ product_category,
        astypeStr c.category_id ≠ astypeStr p.category_id) →
      ∃ row ∈ create_dim_product product product_category,
        row.product_key = p.product_id ∧
        row.category_name = "Sin Categoría" ∧
        row.parent_category_name = "Sin Categoría") ∧
    (∀ p ∈ product, ∀ c ∈ product_category,
      astypeStr c.category_id = astypeStr p.category_id →
      (∀ c' ∈ product_category,
        astypeStr c'.category_id ≠ astypeStr c.parent_id) →
      ∃ row ∈ create_dim_product product product_category,
        row.product_key = p.product_id ∧
        row.category_name = c.name ∧
        row.parent_category_name = "Sin Categoría") := by
  constructor
  · intro p hp hmiss
    rw [create_dim_product]
    set parent_cats := product_category.map (fun c => (astypeStr c.category_id, c.name))
      with hpc
    set enriched := leftJoin product_category parent_cats
      (fun c p => astypeStr c.parent_id == p.1)
      (fun c p =>
        { category_id := astypeStr c.category_id, parent_id := astypeStr c.parent_id,
          name := c.name, parent_category_name := p.map (fun x => x.2) : EnrichedCategory })
      with hen
    have hfil : enriched.filter
        (fun ce => astypeStr p.category_id == ce.category_id) = [] := by
      apply List.filter_eq_nil_iff.mpr
      intro ce hce
      obtain ⟨c, hc, ob, rfl⟩ := eq_of_mem_leftJoin hce
      simp only [beq_iff_eq]
      exact fun he => (hmiss c hc) (he.symm)
    have hdf :
        ({ id := 0, product_key := p.product_id, sku := p.sku, name := p.name,
           list_price := p.list_price, status := p.status, created_at := p.created_at,
           category_name := "Sin Categoría",
           parent_category_name := "Sin Categoría" : DimProductRow }) ∈
        leftJoin product enriched
          (fun pr ce => astypeStr pr.category_id == ce.category_id)
          (fun pr ce =>
            { id := 0, product_key := pr.product_id, sku := pr.sku, name := pr.name,
              list_price := pr.list_price, status := pr.status, created_at := pr.created_at,
              category_name := (ce.map (fun x => x.name)).getD "Sin Categoría",
              parent_category_name :=
                (ce.bind (fun x => x.parent_category_name)).getD "Sin Categoría" }) :=
      combine_none_mem_leftJoin hp hfil
    have hsorted := (perm_sort_values
      (fun r : DimProductRow => r.product_key.toList) _).mem_iff.mpr hdf
    obtain ⟨m, hm⟩ := mem_assignIdsFrom_of_mem
      (fun i (r : DimProductRow) => { r with id := i }) _ _ hsorted 1
    exact ⟨_, hm, rfl, rfl, rfl⟩
  · intro p hp c hc hmatch hparentmiss
    rw [create_dim_product]
    set parent_cats := product_category.map (fun c => (astypeStr c.category_id, c.name))
      with hpc
    have hpcfil : parent_cats.filter (fun pc => astypeStr c.parent_id == pc.1) = [] := by
      apply List.filter_eq_nil_iff.mpr
      intro pc hpcmem
      rw [hpc] at hpcmem
      obtain ⟨c', hc', rfl⟩ := List.mem_map.mp hpcmem
      simp only [beq_iff_eq]
      exact fun he => (hparentmiss c' hc') (he.symm)
    have hce :
        ({ category_id := astypeStr c.category_id, parent_id := astypeStr c.parent_id,
           name := c.name, parent_category_name := none : EnrichedCategory }) ∈
        leftJoin product_category parent_cats
          (fun c p => astypeStr c.parent_id == p.1)
          (fun c p =>
            { category_id := astypeStr c.category_id, parent_id := astypeStr c.parent_id,
              name := c.name, parent_category_name := p.map (fun x => x.2) }) :=
      combine_none_mem_leftJoin hc hpcfil
    have hdf :
        ({ id := 0, product_key := p.product_id, sku := p.sku, name := p.name,
           list_price := p.list_price, status := p.status, created_at := p.created_at,
           category_name := c.name,
           parent_category_name := "Sin Categoría" : DimProductRow }) ∈
        leftJoin product (leftJoin product_category parent_cats
            (fun c p => astypeStr c.parent_id == p.1)
            (fun c p =>
              { category_id := astypeStr c.category_id, parent_id := astypeStr c.parent_id,
                name := c.name,
                parent_category_name := p.map (fun x => x.2) : EnrichedCategory }))
          (fun pr ce => astypeStr pr.category_id == ce.category_id)
          (fun pr ce =>
            { id := 0, product_key := pr.product_id, sku := pr.sku, name := pr.name,
              list_price := pr.list_price, status := pr.status, created_at := pr.created_at,
              category_name := (ce.map (fun x => x.name)).getD "Sin Categoría",
              parent_category_name :=
                (ce.bind (fun x => x.parent_category_name)).getD "Sin Categoría"
              : DimProductRow }) :=
      combine_some_mem_leftJoin hp hce (by simp [hmatch])
    have hsorted := (perm_sort_values
      (fun r : DimProductRow => r.product_key.toList) _).mem_iff.mpr hdf
    obtain ⟨m, hm⟩ := mem_assignIdsFrom_of_mem
      (fun i (r : DimProductRow) => { r with id := i }) _ _ hsorted 1
    exact ⟨_, hm, rfl, rfl, rfl⟩

/-- Witness for C6 at a concrete input exercising both defaulting cases: the
product with `category_id = 99` matches nothing and gets both placeholder
labels; the product with `category_id = 2` matches the category `"Eco"` whose
`parent_id = 77` matches nothing, so it keeps `"Eco"` and gets the parent
placeholder. -/
theorem spec_C6_witness :
    (∃ row ∈ create_dim_product [sampleProductNoCat, sampleProductParentMiss]
        [sampleCategoryOrphan],
      row.product_key = sampleProductNoCat.product_id ∧
      row.category_name = "Sin Categoría" ∧
      row.parent_category_name = "Sin Categoría") ∧
    (∃ row ∈ create_dim_product [sampleProductNoCat, sampleProductParentMiss]
        [sampleCategoryOrphan],
      row.product_key = sampleProductParentMiss.product_id ∧
      row.category_name = sampleCategoryOrphan.name ∧
      row.parent_category_name = "Sin Categoría") ∧
    (create_dim_product [sampleProductNoCat, sampleProductParentMiss]
        [sampleCategoryOrphan]).map
        (fun r => (r.id, r.product_key, r.category_name, r.parent_category_name))
      = [(1, "P1", "Sin Categoría", "Sin Categoría"), (2, "P2", "Eco", "Sin Categoría")] :=
  ⟨(spec_C6_product_category_default [sampleProductNoCat, sampleProductParentMiss]
      [sampleCategoryOrphan]).1 sampleProductNoCat (by decide) (by decide),
   (spec_C6_product_category_default [sampleProductNoCat, sampleProductParentMiss]
      [sampleCategoryOrphan]).2 sampleProductParentMiss (by decide)
      sampleCategoryOrphan (by decide) (by decide) (by decide),
   by rfl⟩

theorem create_fact_sales_order_total (so : List SalesOrderRow) (cal : List CalRow) :
    ∃ rows, create_fact_sales_order so cal = Except.ok rows := by
  simp only [create_fact_sales_order, astypeIntCol_fillnaCol, ok_bind, pure_eq_ok]
  exact ⟨_, rfl⟩

theorem create_fact_sales_order_item_total (items : List SalesOrderItemRow)
    (so : List SalesOrderRow) (cal : List CalRow) :
    ∃ rows, create_fact_sales_order_item items so cal = Except.ok rows := by
  simp only [create_fact_sales_order_item, astypeIntCol_fillnaCol, ok_bind, pure_eq_ok]
  exact ⟨_, rfl⟩

theorem create_fact_payment_total (payments : List PaymentRow)
    (so : List SalesOrderRow) (cal : List CalRow) :
    ∃ rows, create_fact_payment payments so cal = Except.ok rows := by
  simp only [create_fact_payment, astypeIntCol_fillnaCol, ok_bind, pure_eq_ok]
  exact ⟨_, rfl⟩

theorem create_fact_shipment_total (shipments : List ShipmentRow)
    (so : List SalesOrderRow) (cal : List CalRow) :
    ∃ rows, create_fact_shipment shipments so cal = Except.ok rows := by
  simp only [create_fact_shipment, astypeIntCol_fillnaCol, ok_bind, pure_eq_ok]
  exact ⟨_, rfl⟩

theorem create_fact_web_session_total (ws : List WebSessionRow) (cal : List CalRow) :
    ∃ rows, create_fact_web_session ws cal = Except.ok rows := by
  simp only [create_fact_web_session, astypeIntCol_fillnaCol, ok_bind, pure_eq_ok]
  exact ⟨_, rfl⟩

theorem create_fact_nps_response_total (nps : List NpsResponseRow) (cal : List CalRow) :
    ∃ rows, create_fact_nps_response nps cal = Except.ok rows := by
  simp only [create_fact_nps_response, astypeIntCol_fillnaCol, ok_bind, pure_eq_ok]
  exact ⟨_, rfl⟩

/-- C7: on any present snapshot the whole transformation runs to completion —
every fact builder yields one result table, with no per-row abort (the only
fallible column operation, `astype(int)`, always follows a `fillna(-1)`) —
and a timestamp that fails to parse is recovered locally into a null date
key. -/
theorem spec_C7_no_row_aborts :
    (∀ data : Data, ∃ dw, transform_all_data (some data) = some (Except.ok dw)) ∧
    (∀ (c : TCell) (cal : List CalRow), parseTs c = none →
      _get_date_id [c] cal = [none]) := by
  constructor
  · intro data
    obtain ⟨r₁, h₁⟩ := create_fact_sales_order_total data.sales_order
      (create_dim_calendar data).rows
    obtain ⟨r₂, h₂⟩ := create_fact_sales_order_item_total data.sales_order_item
      data.sales_order (create_dim_calendar data).rows
    obtain ⟨r₃, h₃⟩ := create_fact_payment_total data.payment data.sales_order
      (create_dim_calendar data).rows
    obtain ⟨r₄, h₄⟩ := create_fact_shipment_total data.shipment data.sales_order
      (create_dim_calendar data).rows
    obtain ⟨r₅, h₅⟩ := create_fact_web_session_total data.web_session
      (create_dim_calendar data).rows
    obtain ⟨r₆, h₆⟩ := create_fact_nps_response_total data.nps_response
      (create_dim_calendar data).rows
    refine ⟨⟨create_dim_calendar data, create_dim_customer data.customer,
      create_dim_product data.product data.product_category,
      create_dim_channel data.channel, create_dim_address data.address data.province,
      create_dim_store data.store data.address data.province,
      r₁, r₂, r₃, r₄, r₅, r₆⟩, ?_⟩
    simp only [transform_all_data, h₁, h₂, h₃, h₄, h₅, h₆, ok_bind, pure_eq_ok]
  · intro c cal hc
    have hnil : cal.filter (fun r => (none : Option Int) == some r.date) = [] :=
      List.filter_eq_nil_iff.mpr (fun r _ => by simp)
    simp [_get_date_id, hc, leftJoin, hnil]

/-- Witness for C7: the full transformation of the concrete sample snapshot
completes, and an unparseable timestamp resolves to a null date key. -/
theorem spec_C7_witness :
    (∃ dw, transform_all_data (some sampleData) = some (Except.ok dw)) ∧
    _get_date_id [TCell.bad] sampleCalendar = [none] :=
  ⟨spec_C7_no_row_aborts.1 sampleData,
   spec_C7_no_row_aborts.2 TCell.bad sampleCalendar rfl⟩

theorem leftJoin_nil_right (l : List α) (onCols : α → β → Bool)
    (combine : α → Option β → γ) :
    leftJoin l ([] : List β) onCols combine = l.map (fun a => combine a none) := by
  induction l with
  | nil => rfl
  | cons a as ih => simp [leftJoin, ih]

/-- C8: when no valid date exists in the designated columns,
`create_dim_calendar` returns a zero-row table that still carries the full
expected column set, and every downstream date lookup against that empty
Calendar resolves to null (one null per input row). -/
theorem spec_C8_empty_calendar (data : Data)
    (h : all_dates_normalized data = []) :
    (create_dim_calendar data).rows = [] ∧
    (create_dim_calendar data).columns = calendarColumns ∧
    (∀ col : List TCell,
      _get_date_id col (create_dim_calendar data).rows
        = col.map (fun _ => none)) := by
  have hrows : (create_dim_calendar data).rows = [] := by
    simp [create_dim_calendar, h]
  refine ⟨hrows, by simp [create_dim_calendar, h], fun col => ?_⟩
  rw [hrows, _get_date_id, leftJoin_nil_right, List.map_map]
  rfl

/-- Witness for C8 at the concrete empty snapshot. -/
theorem spec_C8_witness :
    (create_dim_calendar emptyData).rows = [] ∧
    (create_dim_calendar emptyData).columns = calendarColumns ∧
    _get_date_id [TCell.ts 0, TCell.null] (create_dim_calendar emptyData).rows
      = [none, none] :=
  ⟨(spec_C8_empty_calendar emptyData rfl).1,
   (spec_C8_empty_calendar emptyData rfl).2.1,
   (spec_C8_empty_calendar emptyData rfl).2.2 [TCell.ts 0, TCell.null]⟩

/-- C9: the transformation is a pure function of the input snapshot — two runs
on equal snapshots produce identical output tables, row for row, with the same
row order and the same surrogate-key assignment. -/
theorem spec_C9_idempotent (d₁ d₂ : Option Data) (h : d₁ = d₂) :
    transform_all_data d₁ = transform_all_data d₂ := by
  rw [h]

/-- Witness for C9 at the concrete sample snapshot. -/
theorem spec_C9_witness :
    transform_all_data (some sampleData) = transform_all_data (some sampleData) :=
  spec_C9_idempotent (some sampleData) (some sampleData) rfl

/-- C10: when every `order_id` occurs at most once in `sales_order` (and the
calendar has the unique dates that `create_dim_calendar` guarantees — final
conjunct), every fact builder emits exactly one output row per row of its
detail source table, in source order: the header left joins never duplicate
and never drop detail rows. -/
theorem spec_C10_detail_row_preservation (items : List SalesOrderItemRow)
    (payments : List PaymentRow) (shipments : List ShipmentRow)
    (ws : List WebSessionRow) (nps : List NpsResponseRow)
    (so : List SalesOrderRow) (cal : List CalRow)
    (ho : (so.map (fun o => o.order_id)).Nodup)
    (h : (cal.map (fun r => r.date)).Nodup) :
    (∃ rows, create_fact_sales_order so cal = Except.ok rows ∧
      rows.length = so.length ∧
      rows.map (fun r => r.id) = so.map (fun o => o.order_id)) ∧
    (∃ rows, create_fact_sales_order_item items so cal = Except.ok rows ∧
      rows.length = items.length ∧
      rows.map (fun r => r.id) = items.map (fun it => it.order_item_id)) ∧
    (∃ rows, create_fact_payment payments so cal = Except.ok rows ∧
      rows.length = payments.length ∧
      rows.map (fun r => r.id) = payments.map (fun p => p.payment_id)) ∧
    (∃ rows, create_fact_shipment shipments so cal = Except.ok rows ∧
      rows.length = shipments.length ∧
      rows.map (fun r => r.id) = shipments.map (fun s => s.shipment_id)) ∧
    (∃ rows, create_fact_web_session ws cal = Except.ok rows ∧
      rows.length = ws.length ∧
      rows.map (fun r => r.id) = ws.map (fun w => w.session_id)) ∧
    (∃ rows, create_fact_nps_response nps cal = Except.ok rows ∧
      rows.length = nps.length ∧
      rows.map (fun r => r.id) = nps.map (fun n => n.nps_id)) ∧
    (∀ data : Data, ((create_dim_calendar data).rows.map (fun r => r.date)).Nodup) := by
  refine ⟨⟨_, create_fact_sales_order_eq so cal h, ?_, ?_⟩,
    ⟨_, create_fact_sales_order_item_eq items so cal ho h, ?_, ?_⟩,
    ⟨_, create_fact_payment_eq payments so cal ho h, ?_, ?_⟩,
    ⟨_, create_fact_shipment_eq shipments so cal ho h, ?_, ?_⟩,
    ⟨_, create_fact_web_session_eq ws cal h, ?_, ?_⟩,
    ⟨_, create_fact_nps_response_eq nps cal h, ?_, ?_⟩,
    calendar_dates_nodup⟩ <;>
  simp [List.map_map]

/-- Witness for C10 at concrete detail tables over a unique-keyed header and
a unique-dated calendar. -/
theorem spec_C10_witness :
    ((∃ rows, create_fact_sales_order [sampleOrder] sampleCalendar = Except.ok rows ∧
      rows.length = [sampleOrder].length ∧
      rows.map (fun r => r.id) = [sampleOrder].map (fun o => o.order_id)) ∧
    (∃ rows, create_fact_sales_order_item sampleItems [sampleOrder] sampleCalendar
        = Except.ok rows ∧
      rows.length = sampleItems.length ∧
      rows.map (fun r => r.id) = sampleItems.map (fun it => it.order_item_id)) ∧
    (∃ rows, create_fact_payment samplePayments [sampleOrder] sampleCalendar
        = Except.ok rows ∧
      rows.length = samplePayments.length ∧
      rows.map (fun r => r.id) = samplePayments.map (fun p => p.payment_id)) ∧
    (∃ rows, create_fact_shipment [shipScenario] [sampleOrder] sampleCalendar
        = Except.ok rows ∧
      rows.length = [shipScenario].length ∧
      rows.map (fun r => r.id) = [shipScenario].map (fun s => s.shipment_id)) ∧
    (∃ rows, create_fact_web_session [] sampleCalendar = Except.ok rows ∧
      rows.length = ([] : List WebSessionRow).length ∧
      rows.map (fun r => r.id) = ([] : List WebSessionRow).map (fun w => w.session_id)) ∧
    (∃ rows, create_fact_nps_response [] sampleCalendar = Except.ok rows ∧
      rows.length = ([] : List NpsResponseRow).length ∧
      rows.map (fun r => r.id) = ([] : List NpsResponseRow).map (fun n => n.nps_id)) ∧
    (∀ data : Data, ((create_dim_calendar data).rows.map (fun r => r.date)).Nodup)) :=
  spec_C10_detail_row_preservation sampleItems samplePayments [shipScenario] [] []
    [sampleOrder] sampleCalendar (by decide) (by decide)
